import Mathlib

/-!
Verification development for the AI_DOC repository
(`src/streamlit_PDF_generator.py`), a Streamlit app that generates
document text (remote chat-completion API with template fallback) and
renders it to PDF.

The Python source is shallowly embedded below:

* Pure text transformations (`clean_text_for_pdf`, template substitution,
  paragraph splitting, heading classification) become Lean functions over
  `String` (whose `data` field is its list of characters).
* Python `str.format` is modelled by an explicit placeholder parser
  (`pyFormatGo`) that fails (`none`) exactly where the CPython call would
  raise (stray braces, unknown field names); our templates use only the
  bare `{prompt}` field, which the parser substitutes verbatim.
* The remote HTTP call in `generate_with_groq` is modelled by an explicit
  outcome value (`GroqOutcome`): status + parsed JSON body, timeout,
  connection error, or any other exception caught by the generic handler.
* The reportlab layout engine used by `create_pdf` is modelled by an
  oracle `layout : List StoryElem → Except String (List Nat)`; the
  built "story" (styled paragraphs and spacers) is constructed exactly as
  in the source, and the `try/except` wrapper becomes a `match` on the
  oracle's result.
-/

/-! ## Character and list helpers (Python string primitives) -/

/-- Python whitespace characters stripped by `str.strip()` (ASCII range;
the app's text is ASCII plus the typographic punctuation handled by
`clean_text_for_pdf`). -/
def pyIsSpaceChar (c : Char) : Bool :=
  c = ' ' || c = '\t' || c = '\n' || c = '\r' || c = '\x0b' || c = '\x0c'

/-- `str.strip()` on the character list: drop whitespace from both ends. -/
def stripList (l : List Char) : List Char :=
  ((l.dropWhile pyIsSpaceChar).reverse.dropWhile pyIsSpaceChar).reverse

/-- Python `str.strip()`. -/
def pyStrip (s : String) : String :=
  String.mk (stripList s.data)

/-- Python `str.lower()` (ASCII letters; the document-type tags are ASCII). -/
def pyLower (s : String) : String :=
  String.mk (s.data.map Char.toLower)

/-- A character is cased (ASCII range), as used by Python `str.isupper()`. -/
def pyCased (c : Char) : Bool :=
  c.isUpper || c.isLower

/-- Python `str.isupper()`: at least one cased character and no lowercase
cased character. -/
def pyIsUpperList (l : List Char) : Bool :=
  l.any pyCased && l.all (fun c => !c.isLower)

/-- Python `str.endswith(':')`. -/
def endsWithColon (l : List Char) : Bool :=
  match l.getLast? with
  | some c => c = ':'
  | none => false

/-- Python `s.startswith(pre)`. -/
def pyStartsWith (s pre : String) : Bool :=
  List.isPrefixOf pre.data s.data

/-- Scanner for Python `s.split('\n\n')`: `acc` holds the reversed
characters of the unit being read; on each non-overlapping occurrence of
two consecutive newlines (leftmost first) the unit is emitted. -/
def pySplit2NLGo (acc : List Char) : List Char → List (List Char)
  | [] => [acc.reverse]
  | '\n' :: '\n' :: rest => acc.reverse :: pySplit2NLGo [] rest
  | c :: rest => pySplit2NLGo (c :: acc) rest

/-- Python `s.split('\n\n')`. -/
def pySplit2NL (l : List Char) : List (List Char) :=
  pySplit2NLGo [] l

/-! ## `PDFGenerator.clean_text_for_pdf` -/

/-- Python `str.replace(a, b)` where `a` and `b` are single characters:
replaces every occurrence, i.e. maps each character. -/
def replaceChar (a b : Char) (s : String) : String :=
  String.mk (s.data.map (fun c => if c = a then b else c))

/-- `PDFGenerator.clean_text_for_pdf`: the five sequential `str.replace`
calls of the source (right single quotation mark, left/right double
quotation marks, en dash, em dash). -/
def clean_text_for_pdf (text : String) : String :=
  let t1 := replaceChar '’' '\x27' text
  let t2 := replaceChar '“' '\x22' t1
  let t3 := replaceChar '”' '\x22' t2
  let t4 := replaceChar '–' '-' t3
  replaceChar '—' '-' t4

/-- The per-character table realised by the five replacements (used to
state that `clean_text_for_pdf` is exactly a character-wise map). -/
def cleanCharTable (c : Char) : Char :=
  if c = '’' then '\x27'
  else if c = '“' then '\x22'
  else if c = '”' then '\x22'
  else if c = '–' then '-'
  else if c = '—' then '-'
  else c

theorem clean_data (s : String) :
    (clean_text_for_pdf s).data = s.data.map cleanCharTable := by
  show (((((s.data.map _).map _).map _).map _).map _) = _
  simp only [List.map_map]
  apply List.map_congr_left
  intro c _
  simp only [Function.comp]
  by_cases h1 : c = '’'
  · subst h1; rfl
  · by_cases h2 : c = '“'
    · subst h2; rfl
    · by_cases h3 : c = '”'
      · subst h3; rfl
      · by_cases h4 : c = '–'
        · subst h4; rfl
        · by_cases h5 : c = '—'
          · subst h5; rfl
          · simp [cleanCharTable, h1, h2, h3, h4, h5]

theorem cleanCharTable_idem (c : Char) :
    cleanCharTable (cleanCharTable c) = cleanCharTable c := by
  unfold cleanCharTable
  split_ifs <;> simp_all

example : clean_text_for_pdf "a’b“c”d–e—f" =
    "a\x27b\x22c\x22d-e-f" := by decide

/-! ## `PDFGenerator.create_pdf` story construction -/

/-- The paragraph styles used by the source (`setup_custom_styles` plus the
stock `Normal` style used for the footer). -/
inductive PStyle where
  | customTitle
  | customHeader
  | customBody
  | normal
deriving DecidableEq, Repr

/-- One flowable appended to the reportlab story: a styled paragraph or a
`Spacer(w, h)`. -/
inductive StoryElem where
  | para (style : PStyle) (text : String)
  | spacer (w h : Nat)
deriving DecidableEq, Repr

/-- The heading heuristic of `create_pdf`: trimmed length under 80 and
(fully upper-case or ends with a colon). -/
def isHeadingUnit (t : List Char) : Bool :=
  decide (t.length < 80) && (pyIsUpperList t || endsWithColon t)

/-- The loop body of `create_pdf`: a blank-line-separated unit contributes
nothing if its strip is empty, otherwise a styled paragraph (heading or
body by `isHeadingUnit`) followed by `Spacer(1, 12)`. -/
def renderUnit (u : List Char) : List StoryElem :=
  if stripList u = [] then []
  else
    [StoryElem.para
      (if isHeadingUnit (stripList u) then PStyle.customHeader else PStyle.customBody)
      (String.mk (stripList u)),
     StoryElem.spacer 1 12]

/-- The story assembled by `create_pdf`: cleaned title, spacer, the
rendered blank-line-separated units of the cleaned content, a `Spacer(1, 30)`
and the timestamp footer (the footer text, which depends on the wall
clock, is a parameter). -/
def buildStory (content document_type footerText : String) : List StoryElem :=
  [StoryElem.para PStyle.customTitle (clean_text_for_pdf document_type),
   StoryElem.spacer 1 20]
  ++ (pySplit2NL (clean_text_for_pdf content).data).flatMap renderUnit
  ++ [StoryElem.spacer 1 30, StoryElem.para PStyle.normal footerText]

/-- `PDFGenerator.create_pdf`: the whole body runs inside `try/except`.
The reportlab build step is an oracle `layout` that either produces the
byte buffer or fails with an exception message; the `except` branch
returns `None` and emits the `st.error` diagnostic (second component). -/
def create_pdf (layout : List StoryElem → Except String (List Nat))
    (content document_type footerText : String) :
    Option (List Nat) × Option String :=
  match layout (buildStory content document_type footerText) with
  | Except.ok bytes => (some bytes, none)
  | Except.error e => (none, some ("PDF Generation Error: " ++ e))

/-! ## Template strings of `AIClient.generate_with_template` -/

/-- The `"cover_letter"` template string of `generate_with_template`. -/
def cover_letter_template : String :=
  "Dear Hiring Manager,

I am writing to express my strong interest in the position you have available. Based on the information provided:

{prompt}

I am confident that my background and skills make me an excellent candidate for this role. My experience includes:

• Strong analytical and problem-solving abilities
• Excellent written and verbal communication skills
• Proven track record of working effectively in team environments
• Adaptability and eagerness to learn new technologies and methodologies

I am excited about the opportunity to contribute to your organization and would welcome the chance to discuss how my qualifications align with your needs. I am available for an interview at your convenience and look forward to hearing from you.

Thank you for your time and consideration.

Sincerely,
[Your Name]"

/-- The text of `cover_letter_template` before its placeholder. -/
def cover_letter_pre : String :=
  "Dear Hiring Manager,

I am writing to express my strong interest in the position you have available. Based on the information provided:

"

/-- The text of `cover_letter_template` after its placeholder. -/
def cover_letter_post : String :=
  "

I am confident that my background and skills make me an excellent candidate for this role. My experience includes:

• Strong analytical and problem-solving abilities
• Excellent written and verbal communication skills
• Proven track record of working effectively in team environments
• Adaptability and eagerness to learn new technologies and methodologies

I am excited about the opportunity to contribute to your organization and would welcome the chance to discuss how my qualifications align with your needs. I am available for an interview at your convenience and look forward to hearing from you.

Thank you for your time and consideration.

Sincerely,
[Your Name]"

/-- The `"resume"` template string of `generate_with_template`. -/
def resume_template : String :=
  "[YOUR NAME]
[Your Email Address] | [Your Phone Number] | [Your City, State]
[LinkedIn Profile] | [Portfolio/Website]

PROFESSIONAL SUMMARY
Experienced professional with a strong background in the requirements outlined: {prompt}

CORE COMPETENCIES
• Technical Skills: [Based on your background]
• Leadership & Team Management
• Project Management
• Problem Solving & Analysis
• Communication & Collaboration

PROFESSIONAL EXPERIENCE

[MOST RECENT POSITION] | [Company Name] | [Dates]
• Led projects and initiatives resulting in improved efficiency
• Collaborated with cross-functional teams to achieve organizational goals  
• Implemented solutions that enhanced operational effectiveness
• Demonstrated expertise in relevant technologies and methodologies

[PREVIOUS POSITION] | [Company Name] | [Dates]
• Contributed to key projects and strategic initiatives
• Developed and maintained professional relationships with stakeholders
• Applied technical skills to solve complex business challenges

EDUCATION
[Degree] in [Field] | [University Name] | [Year]

CERTIFICATIONS & ADDITIONAL QUALIFICATIONS
[Relevant certifications based on your field]"

/-- The text of `resume_template` before its placeholder. -/
def resume_pre : String :=
  "[YOUR NAME]
[Your Email Address] | [Your Phone Number] | [Your City, State]
[LinkedIn Profile] | [Portfolio/Website]

PROFESSIONAL SUMMARY
Experienced professional with a strong background in the requirements outlined: "

/-- The text of `resume_template` after its placeholder. -/
def resume_post : String :=
  "

CORE COMPETENCIES
• Technical Skills: [Based on your background]
• Leadership & Team Management
• Project Management
• Problem Solving & Analysis
• Communication & Collaboration

PROFESSIONAL EXPERIENCE

[MOST RECENT POSITION] | [Company Name] | [Dates]
• Led projects and initiatives resulting in improved efficiency
• Collaborated with cross-functional teams to achieve organizational goals  
• Implemented solutions that enhanced operational effectiveness
• Demonstrated expertise in relevant technologies and methodologies

[PREVIOUS POSITION] | [Company Name] | [Dates]
• Contributed to key projects and strategic initiatives
• Developed and maintained professional relationships with stakeholders
• Applied technical skills to solve complex business challenges

EDUCATION
[Degree] in [Field] | [University Name] | [Year]

CERTIFICATIONS & ADDITIONAL QUALIFICATIONS
[Relevant certifications based on your field]"

/-- The `"proposal"` template string of `generate_with_template`. -/
def proposal_template : String :=
  "BUSINESS PROPOSAL

EXECUTIVE SUMMARY
This proposal outlines a comprehensive solution to address the requirements specified: {prompt}

PROBLEM STATEMENT
Based on the current situation and needs identified, there are opportunities for improvement that can be addressed through strategic planning and implementation.

PROPOSED SOLUTION
Our recommended approach includes:
• Thorough analysis of current processes and systems
• Development of customized solutions tailored to specific requirements
• Implementation of best practices and industry standards
• Ongoing support and optimization

IMPLEMENTATION PLAN
Phase 1: Assessment and Planning (Weeks 1-2)
• Detailed requirements gathering
• Stakeholder interviews and analysis
• Solution design and documentation

Phase 2: Development and Testing (Weeks 3-6)
• Solution development and configuration
• Quality assurance and testing procedures
• User training materials preparation

Phase 3: Deployment and Support (Weeks 7-8)
• System deployment and go-live support
• User training and knowledge transfer
• Post-implementation support and optimization

EXPECTED OUTCOMES
• Improved efficiency and productivity
• Enhanced user experience and satisfaction
• Measurable return on investment
• Scalable solution for future growth

BUDGET CONSIDERATIONS
Investment required will be commensurate with the scope and complexity of the solution, with flexible options to meet budget requirements.

CONCLUSION
We are committed to delivering a solution that meets your specific needs and exceeds expectations. We look forward to the opportunity to discuss this proposal in detail."

/-- The text of `proposal_template` before its placeholder. -/
def proposal_pre : String :=
  "BUSINESS PROPOSAL

EXECUTIVE SUMMARY
This proposal outlines a comprehensive solution to address the requirements specified: "

/-- The text of `proposal_template` after its placeholder. -/
def proposal_post : String :=
  "

PROBLEM STATEMENT
Based on the current situation and needs identified, there are opportunities for improvement that can be addressed through strategic planning and implementation.

PROPOSED SOLUTION
Our recommended approach includes:
• Thorough analysis of current processes and systems
• Development of customized solutions tailored to specific requirements
• Implementation of best practices and industry standards
• Ongoing support and optimization

IMPLEMENTATION PLAN
Phase 1: Assessment and Planning (Weeks 1-2)
• Detailed requirements gathering
• Stakeholder interviews and analysis
• Solution design and documentation

Phase 2: Development and Testing (Weeks 3-6)
• Solution development and configuration
• Quality assurance and testing procedures
• User training materials preparation

Phase 3: Deployment and Support (Weeks 7-8)
• System deployment and go-live support
• User training and knowledge transfer
• Post-implementation support and optimization

EXPECTED OUTCOMES
• Improved efficiency and productivity
• Enhanced user experience and satisfaction
• Measurable return on investment
• Scalable solution for future growth

BUDGET CONSIDERATIONS
Investment required will be commensurate with the scope and complexity of the solution, with flexible options to meet budget requirements.

CONCLUSION
We are committed to delivering a solution that meets your specific needs and exceeds expectations. We look forward to the opportunity to discuss this proposal in detail."

/-- The `"letter"` template string of `generate_with_template`. -/
def letter_template : String :=
  "[Date]

[Recipient Name]
[Recipient Title]
[Company/Organization Name]
[Address]

Dear [Recipient Name/Title],

I hope this letter finds you well. I am writing to address the matter outlined below:

{prompt}

I believe this correspondence will help clarify the situation and provide the necessary information for your consideration. Please find the relevant details and context provided above.

I would appreciate your attention to this matter and look forward to your response. Should you require any additional information or clarification, please do not hesitate to contact me.

Thank you for your time and consideration of this request.

Sincerely,

[Your Name]
[Your Title]
[Your Contact Information]"

/-- The text of `letter_template` before its placeholder. -/
def letter_pre : String :=
  "[Date]

[Recipient Name]
[Recipient Title]
[Company/Organization Name]
[Address]

Dear [Recipient Name/Title],

I hope this letter finds you well. I am writing to address the matter outlined below:

"

/-- The text of `letter_template` after its placeholder. -/
def letter_post : String :=
  "

I believe this correspondence will help clarify the situation and provide the necessary information for your consideration. Please find the relevant details and context provided above.

I would appreciate your attention to this matter and look forward to your response. Should you require any additional information or clarification, please do not hesitate to contact me.

Thank you for your time and consideration of this request.

Sincerely,

[Your Name]
[Your Title]
[Your Contact Information]"

/-- The `"document"` template string of `generate_with_template`. -/
def document_template : String :=
  "PROFESSIONAL DOCUMENT

OVERVIEW
This document has been prepared to address the requirements and specifications outlined in your request: {prompt}

MAIN CONTENT
Based on the information provided, this document covers the key areas of focus and provides comprehensive coverage of the relevant topics.

The content has been structured to ensure clarity and accessibility, with logical organization and professional presentation throughout.

KEY POINTS
• Comprehensive coverage of specified requirements
• Professional formatting and presentation
• Clear and concise language appropriate for the intended audience
• Actionable recommendations and next steps where applicable

CONCLUSION
This document provides a solid foundation for moving forward with the outlined objectives and requirements. Please review the content and let me know if any adjustments or additional information are needed.

Thank you for the opportunity to prepare this document."

/-- The text of `document_template` before its placeholder. -/
def document_pre : String :=
  "PROFESSIONAL DOCUMENT

OVERVIEW
This document has been prepared to address the requirements and specifications outlined in your request: "

/-- The text of `document_template` after its placeholder. -/
def document_post : String :=
  "

MAIN CONTENT
Based on the information provided, this document covers the key areas of focus and provides comprehensive coverage of the relevant topics.

The content has been structured to ensure clarity and accessibility, with logical organization and professional presentation throughout.

KEY POINTS
• Comprehensive coverage of specified requirements
• Professional formatting and presentation
• Clear and concise language appropriate for the intended audience
• Actionable recommendations and next steps where applicable

CONCLUSION
This document provides a solid foundation for moving forward with the outlined objectives and requirements. Please review the content and let me know if any adjustments or additional information are needed.

Thank you for the opportunity to prepare this document."

/-- The template-mode output for document type `proposal` and prompt `x`: the proposal template with the prompt substituted and the template-mode note appended (used as a concrete test document). -/
def proposal_filled : String :=
  "BUSINESS PROPOSAL

EXECUTIVE SUMMARY
This proposal outlines a comprehensive solution to address the requirements specified: x

PROBLEM STATEMENT
Based on the current situation and needs identified, there are opportunities for improvement that can be addressed through strategic planning and implementation.

PROPOSED SOLUTION
Our recommended approach includes:
• Thorough analysis of current processes and systems
• Development of customized solutions tailored to specific requirements
• Implementation of best practices and industry standards
• Ongoing support and optimization

IMPLEMENTATION PLAN
Phase 1: Assessment and Planning (Weeks 1-2)
• Detailed requirements gathering
• Stakeholder interviews and analysis
• Solution design and documentation

Phase 2: Development and Testing (Weeks 3-6)
• Solution development and configuration
• Quality assurance and testing procedures
• User training materials preparation

Phase 3: Deployment and Support (Weeks 7-8)
• System deployment and go-live support
• User training and knowledge transfer
• Post-implementation support and optimization

EXPECTED OUTCOMES
• Improved efficiency and productivity
• Enhanced user experience and satisfaction
• Measurable return on investment
• Scalable solution for future growth

BUDGET CONSIDERATIONS
Investment required will be commensurate with the scope and complexity of the solution, with flexible options to meet budget requirements.

CONCLUSION
We are committed to delivering a solution that meets your specific needs and exceeds expectations. We look forward to the opportunity to discuss this proposal in detail.

---
Note: This document was generated using template mode. For enhanced AI-generated content, configure an API token in Streamlit secrets."

/-! ## `AIClient.generate_with_template` -/

/-- The `templates.get(document_type.lower(), templates["document"])` lookup
of the source: the five-entry dict with the `"document"` template as
default for unrecognised keys. -/
def templatesLookup (key : String) : String :=
  if key = "cover_letter" then cover_letter_template
  else if key = "resume" then resume_template
  else if key = "proposal" then proposal_template
  else if key = "letter" then letter_template
  else if key = "document" then document_template
  else document_template

/-- The template-mode note appended by `generate_with_template`. -/
def template_note : String :=
  "\n\n---\nNote: This document was generated using template mode. For enhanced AI-generated content, configure an API token in Streamlit secrets."

/-- Scanner state for the model of CPython `str.format`: copying literal
text, just after an unescaped `{`, just after an unescaped `}`, or inside
a replacement-field name (reversed accumulator). -/
inductive FmtState where
  | literal
  | afterL
  | afterR
  | field (acc : List Char)
deriving DecidableEq, Repr

/-- Model of CPython `template.format(prompt=p)` as a scan over the
template characters. `{{` and `}}` are escapes; a bare `{prompt}` field
substitutes `p`; any other field name, a lone `}` or an unterminated `{`
makes the call raise (`none`). Conversion/format-spec syntax is not used
by any template of the source and is likewise modelled as failure. -/
def pyFormatGo (p : List Char) : FmtState → List Char → Option (List Char)
  | FmtState.literal, [] => some []
  | FmtState.afterL, [] => none
  | FmtState.afterR, [] => none
  | FmtState.field _, [] => none
  | FmtState.literal, c :: rest =>
    if c = '{' then pyFormatGo p FmtState.afterL rest
    else if c = '}' then pyFormatGo p FmtState.afterR rest
    else (pyFormatGo p FmtState.literal rest).map (fun r => c :: r)
  | FmtState.afterL, c :: rest =>
    if c = '{' then (pyFormatGo p FmtState.literal rest).map (fun r => '{' :: r)
    else if c = '}' then none
    else pyFormatGo p (FmtState.field [c]) rest
  | FmtState.afterR, c :: rest =>
    if c = '}' then (pyFormatGo p FmtState.literal rest).map (fun r => '}' :: r)
    else none
  | FmtState.field acc, c :: rest =>
    if c = '}' then
      if acc.reverse = "prompt".data then
        (pyFormatGo p FmtState.literal rest).map (fun r => p ++ r)
      else none
    else pyFormatGo p (FmtState.field (c :: acc)) rest

/-- `template.format(prompt=prompt)` on strings; `none` models a raised
exception. -/
def pyFormat (tmpl p : String) : Option String :=
  (pyFormatGo p.data FmtState.literal tmpl.data).map String.mk

/-- `AIClient.generate_with_template`: look the template up by the
lowercased document type (default template if unrecognised), substitute
the prompt, and append the template-mode note. -/
def generate_with_template (prompt document_type : String) : Option String :=
  (pyFormat (templatesLookup (pyLower document_type)) prompt).map
    (fun formatted_content => formatted_content ++ template_note)

/-- Verbatim placeholder substitution, following the specification words:
replace each occurrence of the substring `{prompt}` by the prompt,
changing nothing else (spec-side definition, for comparison with the
source-side `pyFormat`). -/
def replaceSub (p0 : Char) (pat rep : List Char) : List Char → List Char
  | [] => []
  | c :: rest =>
    if List.isPrefixOf (p0 :: pat) (c :: rest) then
      rep ++ replaceSub p0 pat rep (rest.drop pat.length)
    else c :: replaceSub p0 pat rep rest
termination_by l => l.length
decreasing_by
  · simp only [List.length_cons, List.length_drop]
    omega
  · simp only [List.length_cons]
    omega

/-- The characters of the placeholder after its opening brace: the field
name `prompt` followed by the closing brace. -/
def promptFieldTail : List Char :=
  "prompt".data ++ ['\x7d']

/-- Spec-side verbatim substitution of the prompt at the `{prompt}`
placeholder. -/
def substPrompt (tmpl p : String) : String :=
  String.mk (replaceSub '{' promptFieldTail p.data tmpl.data)

/-! ## `AIClient.generate_with_groq` and `AIClient.generate_content` -/

/-- The JSON body obtained from `response.json()`: either the call raises
(malformed body, message carried by the exception) or it yields a dict in
which we record the `choices` field (as the list of
`choices[i].message.content` strings, `none` when the key is absent) and
the `error` field (`none`: key absent; `some none`: present without a
`message`; `some (some m)`: present with message `m`). -/
inductive JsonBody where
  | malformed (excMsg : String)
  | ok (choices : Option (List String)) (error : Option (Option String))
deriving DecidableEq, Repr

/-- Outcome of the `requests.post` call in `generate_with_groq`: an HTTP
response (status, parsed body, raw text used in the `except` branch of the
error-detail extraction), a timeout, a connection error, or any other
exception caught by the trailing generic handler. -/
inductive GroqOutcome where
  | response (status : Nat) (body : JsonBody) (rawText : String)
  | timeout
  | connectionError
  | otherException (excMsg : String)
deriving DecidableEq, Repr

set_option linter.unusedVariables false in
/-- `AIClient.generate_with_groq`: the request payload (system prompt
chosen by document type, user message) only feeds the remote model and is
irrelevant to the returned value given the response, so the `prompt` and
`document_type` arguments are carried but unused. -/
def generate_with_groq (token : String) (outcome : GroqOutcome)
    (prompt document_type : String) : String :=
  if token = "" then
    "Error: No Groq API token configured. Please add GROQ_TOKEN to Streamlit secrets."
  else
    match outcome with
    | GroqOutcome.timeout => "Error: Request timed out. Please try again."
    | GroqOutcome.connectionError =>
      "Error: Connection failed. Please check your internet connection."
    | GroqOutcome.otherException m => "Error: " ++ m
    | GroqOutcome.response status body rawText =>
      if status = 200 then
        match body with
        | JsonBody.malformed m => "Error: " ++ m
        | JsonBody.ok choices _ =>
          match choices with
          | some (c :: _) => pyStrip c
          | _ => "Error: Invalid response format from API"
      else
        match body with
        | JsonBody.malformed _ =>
          "Error: " ++ ("API Error " ++ toString status ++ ": " ++ rawText)
        | JsonBody.ok _ none => "Error: " ++ ("API Error " ++ toString status)
        | JsonBody.ok _ (some none) =>
          "Error: " ++ ("API Error " ++ toString status ++ ": Unknown error")
        | JsonBody.ok _ (some (some m)) =>
          "Error: " ++ ("API Error " ++ toString status ++ ": " ++ m)

/-- `AIClient.generate_content`: remote generation when `use_api` is set
and a token is configured, falling back to the template whenever the
remote result starts with `"Error:"`; template mode otherwise. -/
def generate_content (token : String) (outcome : GroqOutcome)
    (prompt document_type : String) (use_api : Bool) : Option String :=
  if use_api = true ∧ token ≠ "" then
    let result := generate_with_groq token outcome prompt document_type
    if pyStartsWith result "Error:" = true then
      generate_with_template prompt document_type
    else some result
  else generate_with_template prompt document_type

/-! ## General lemmas -/

/-- A character list with no braces is copied literally by `str.format`. -/
def braceFree (l : List Char) : Bool :=
  l.all (fun c => !(c = '{' || c = '}'))

theorem braceFree_spec {l : List Char} (h : braceFree l = true) :
    ∀ c ∈ l, c ≠ '{' ∧ c ≠ '}' := by
  intro c hc
  have := List.all_eq_true.mp h c hc
  simp only [Bool.not_eq_true', Bool.or_eq_false_iff, decide_eq_false_iff_not] at this
  exact this

theorem isPrefixOf_append_of_le (l₁ l₂ X : List Char) (h : l₁.length ≤ l₂.length) :
    List.isPrefixOf l₁ (l₂ ++ X) = List.isPrefixOf l₁ l₂ := by
  induction l₁ generalizing l₂ with
  | nil => simp [List.isPrefixOf]
  | cons a as ih =>
    cases l₂ with
    | nil => simp at h
    | cons b bs =>
      simp only [List.cons_append, List.isPrefixOf, List.append_eq]
      rw [ih bs (by simpa using h)]

theorem isPrefixOf_cons_ne (c d : Char) (h : c ≠ d) (l m : List Char) :
    List.isPrefixOf (c :: l) (d :: m) = false := by
  simp only [List.isPrefixOf, Bool.and_eq_false_iff]
  left
  simpa using h

theorem pyFormatGo_copy (p l m : List Char) (h : braceFree l = true) :
    pyFormatGo p FmtState.literal (l ++ m) =
      (pyFormatGo p FmtState.literal m).map (fun r => l ++ r) := by
  induction l with
  | nil =>
    simp only [List.nil_append]
    cases pyFormatGo p FmtState.literal m <;> rfl
  | cons c t ih =>
    have hc := braceFree_spec h c (List.mem_cons_self c t)
    have ht : braceFree t = true := by
      simp only [braceFree, List.all_cons, Bool.and_eq_true] at h
      exact h.2
    rw [List.cons_append, pyFormatGo, if_neg hc.1, if_neg hc.2, ih ht]
    cases pyFormatGo p FmtState.literal m <;> rfl

theorem pyFormatGo_braceFree (p l : List Char) (h : braceFree l = true) :
    pyFormatGo p FmtState.literal l = some l := by
  have h2 := pyFormatGo_copy p l [] h
  rw [List.append_nil] at h2
  rw [h2, show pyFormatGo p FmtState.literal [] = some [] from rfl]
  simp

theorem pyFormatGo_placeholder (p m : List Char) :
    pyFormatGo p FmtState.literal ('{' :: "prompt".data ++ '}' :: m) =
      (pyFormatGo p FmtState.literal m).map (fun r => p ++ r) := by
  show pyFormatGo p FmtState.literal
      ('{' :: 'p' :: 'r' :: 'o' :: 'm' :: 'p' :: 't' :: '}' :: m) = _
  rw [pyFormatGo, if_pos rfl]
  rw [pyFormatGo, if_neg (by decide), if_neg (by decide)]
  rw [pyFormatGo, if_neg (by decide)]
  rw [pyFormatGo, if_neg (by decide)]
  rw [pyFormatGo, if_neg (by decide)]
  rw [pyFormatGo, if_neg (by decide)]
  rw [pyFormatGo, if_neg (by decide)]
  rw [pyFormatGo, if_pos rfl, if_pos (by decide)]

theorem replaceSub_copy (pat rep pre l : List Char) (h : ∀ c ∈ pre, c ≠ '{') :
    replaceSub '{' pat rep (pre ++ l) = pre ++ replaceSub '{' pat rep l := by
  induction pre with
  | nil => simp
  | cons c t ih =>
    have hc : c ≠ '{' := h c (List.mem_cons_self c t)
    have ht : ∀ d ∈ t, d ≠ '{' := fun d hd => h d (List.mem_cons_of_mem c hd)
    rw [List.cons_append, replaceSub,
      if_neg (by rw [isPrefixOf_cons_ne '{' c (fun e => hc e.symm)]; simp),
      ih ht, List.cons_append]

theorem replaceSub_nomatch (pat rep l : List Char) (h : ∀ c ∈ l, c ≠ '{') :
    replaceSub '{' pat rep l = l := by
  have h2 := replaceSub_copy pat rep l [] h
  rw [List.append_nil] at h2
  rw [h2, replaceSub, List.append_nil]

theorem replaceSub_placeholder (rep m : List Char) (h : ∀ c ∈ m, c ≠ '{') :
    replaceSub '{' promptFieldTail rep ('{' :: "prompt".data ++ '}' :: m) = rep ++ m := by
  show replaceSub '{' promptFieldTail rep ('{' :: (promptFieldTail ++ m)) = rep ++ m
  rw [replaceSub]
  rw [if_pos (by
    rw [show List.isPrefixOf ('{' :: promptFieldTail) ('{' :: (promptFieldTail ++ m)) =
      List.isPrefixOf promptFieldTail (promptFieldTail ++ m) by simp [List.isPrefixOf]]
    rw [isPrefixOf_append_of_le _ _ _ (Nat.le_refl _)]
    decide)]
  rw [show List.drop promptFieldTail.length (promptFieldTail ++ m) = m from
    List.drop_left _ _]
  rw [replaceSub_nomatch _ _ _ h]

theorem format_subst_decomp (tmpl pre post : String)
    (hdec : tmpl.data = pre.data ++ '{' :: "prompt".data ++ '}' :: post.data)
    (hpre : braceFree pre.data = true) (hpost : braceFree post.data = true)
    (p : String) :
    pyFormat tmpl p = some (String.mk (pre.data ++ p.data ++ post.data)) ∧
    substPrompt tmpl p = String.mk (pre.data ++ p.data ++ post.data) := by
  constructor
  · unfold pyFormat
    rw [hdec, List.append_assoc]
    rw [pyFormatGo_copy p.data pre.data _ hpre]
    rw [pyFormatGo_placeholder p.data post.data]
    rw [pyFormatGo_braceFree p.data post.data hpost]
    simp [List.append_assoc]
  · unfold substPrompt
    rw [hdec, List.append_assoc]
    rw [replaceSub_copy _ _ pre.data _ (fun c hc => (braceFree_spec hpre c hc).1)]
    rw [replaceSub_placeholder p.data post.data (fun c hc => (braceFree_spec hpost c hc).1)]
    simp [List.append_assoc]

set_option maxRecDepth 40000 in
theorem cover_letter_decomp : cover_letter_template.data =
    cover_letter_pre.data ++ '{' :: "prompt".data ++ '}' :: cover_letter_post.data :=
  eq_of_beq (by decide)

set_option maxRecDepth 40000 in
theorem cover_letter_braceFree :
    braceFree cover_letter_pre.data = true ∧ braceFree cover_letter_post.data = true := by
  constructor <;> decide

set_option maxRecDepth 40000 in
theorem resume_decomp : resume_template.data =
    resume_pre.data ++ '{' :: "prompt".data ++ '}' :: resume_post.data :=
  eq_of_beq (by decide)

set_option maxRecDepth 40000 in
theorem resume_braceFree :
    braceFree resume_pre.data = true ∧ braceFree resume_post.data = true := by
  constructor <;> decide

set_option maxRecDepth 40000 in
theorem proposal_decomp : proposal_template.data =
    proposal_pre.data ++ '{' :: "prompt".data ++ '}' :: proposal_post.data :=
  eq_of_beq (by decide)

set_option maxRecDepth 40000 in
theorem proposal_braceFree :
    braceFree proposal_pre.data = true ∧ braceFree proposal_post.data = true := by
  constructor <;> decide

set_option maxRecDepth 40000 in
theorem letter_decomp : letter_template.data =
    letter_pre.data ++ '{' :: "prompt".data ++ '}' :: letter_post.data :=
  eq_of_beq (by decide)

set_option maxRecDepth 40000 in
theorem letter_braceFree :
    braceFree letter_pre.data = true ∧ braceFree letter_post.data = true := by
  constructor <;> decide

set_option maxRecDepth 40000 in
theorem document_decomp : document_template.data =
    document_pre.data ++ '{' :: "prompt".data ++ '}' :: document_post.data :=
  eq_of_beq (by decide)

set_option maxRecDepth 40000 in
theorem document_braceFree :
    braceFree document_pre.data = true ∧ braceFree document_post.data = true := by
  constructor <;> decide

theorem pyFormat_eq_subst_of_decomp (tmpl pre post p : String)
    (hdec : tmpl.data = pre.data ++ '{' :: "prompt".data ++ '}' :: post.data)
    (hpre : braceFree pre.data = true) (hpost : braceFree post.data = true) :
    pyFormat tmpl p = some (substPrompt tmpl p) := by
  obtain ⟨h1, h2⟩ := format_subst_decomp tmpl pre post hdec hpre hpost p
  rw [h1, h2]

theorem pyFormat_templatesLookup (k p : String) :
    pyFormat (templatesLookup k) p = some (substPrompt (templatesLookup k) p) := by
  unfold templatesLookup
  split_ifs
  · exact pyFormat_eq_subst_of_decomp _ _ _ p cover_letter_decomp
      cover_letter_braceFree.1 cover_letter_braceFree.2
  · exact pyFormat_eq_subst_of_decomp _ _ _ p resume_decomp
      resume_braceFree.1 resume_braceFree.2
  · exact pyFormat_eq_subst_of_decomp _ _ _ p proposal_decomp
      proposal_braceFree.1 proposal_braceFree.2
  · exact pyFormat_eq_subst_of_decomp _ _ _ p letter_decomp
      letter_braceFree.1 letter_braceFree.2
  · exact pyFormat_eq_subst_of_decomp _ _ _ p document_decomp
      document_braceFree.1 document_braceFree.2
  · exact pyFormat_eq_subst_of_decomp _ _ _ p document_decomp
      document_braceFree.1 document_braceFree.2

theorem gwt_eq (p dt : String) :
    generate_with_template p dt =
      some (substPrompt (templatesLookup (pyLower dt)) p ++ template_note) := by
  unfold generate_with_template
  rw [pyFormat_templatesLookup]
  rfl

theorem no_err_of_decomp (tmpl pre post p : String)
    (hdec : tmpl.data = pre.data ++ '{' :: "prompt".data ++ '}' :: post.data)
    (hpre : braceFree pre.data = true) (hpost : braceFree post.data = true)
    (hlen : "Error:".data.length ≤ pre.data.length)
    (hne : List.isPrefixOf "Error:".data pre.data = false) :
    pyStartsWith (substPrompt tmpl p ++ template_note) "Error:" = false := by
  rw [(format_subst_decomp tmpl pre post hdec hpre hpost p).2]
  unfold pyStartsWith
  rw [String.data_append]
  show List.isPrefixOf "Error:".data
    (pre.data ++ p.data ++ post.data ++ template_note.data) = false
  rw [List.append_assoc, List.append_assoc]
  rw [isPrefixOf_append_of_le _ _ _ hlen]
  exact hne

set_option maxRecDepth 40000 in
theorem no_err_templatesLookup (k p : String) :
    pyStartsWith (substPrompt (templatesLookup k) p ++ template_note) "Error:" = false := by
  unfold templatesLookup
  split_ifs
  · exact no_err_of_decomp _ _ _ p cover_letter_decomp
      cover_letter_braceFree.1 cover_letter_braceFree.2 (by decide) (by decide)
  · exact no_err_of_decomp _ _ _ p resume_decomp
      resume_braceFree.1 resume_braceFree.2 (by decide) (by decide)
  · exact no_err_of_decomp _ _ _ p proposal_decomp
      proposal_braceFree.1 proposal_braceFree.2 (by decide) (by decide)
  · exact no_err_of_decomp _ _ _ p letter_decomp
      letter_braceFree.1 letter_braceFree.2 (by decide) (by decide)
  · exact no_err_of_decomp _ _ _ p document_decomp
      document_braceFree.1 document_braceFree.2 (by decide) (by decide)
  · exact no_err_of_decomp _ _ _ p document_decomp
      document_braceFree.1 document_braceFree.2 (by decide) (by decide)

theorem err_prefix_append (s : String) :
    pyStartsWith ("Error: " ++ s) "Error:" = true := by
  unfold pyStartsWith
  rw [String.data_append]
  rw [isPrefixOf_append_of_le _ _ _ (by decide)]
  decide

theorem groq_err_of_nonok (token p dt raw : String) (body : JsonBody) (status : Nat)
    (htok : token ≠ "") (hst : status ≠ 200) :
    pyStartsWith
      (generate_with_groq token (GroqOutcome.response status body raw) p dt)
      "Error:" = true := by
  unfold generate_with_groq
  rw [if_neg htok]
  show pyStartsWith (if status = 200 then _ else _) "Error:" = true
  rw [if_neg hst]
  cases body with
  | malformed m => exact err_prefix_append _
  | ok choices err =>
    match err with
    | none => exact err_prefix_append _
    | some none => exact err_prefix_append _
    | some (some m) => exact err_prefix_append _

/-! ## Claim theorems -/

/-- C9: `clean_text_for_pdf` is idempotent and length-preserving: applying
it twice equals applying it once, and the output has exactly as many
characters as the input (each replaced character maps to exactly one ASCII
character). -/
theorem c9_clean_idempotent_and_length (s : String) :
    clean_text_for_pdf (clean_text_for_pdf s) = clean_text_for_pdf s ∧
    (clean_text_for_pdf s).data.length = s.data.length := by
  constructor
  · apply String.ext
    rw [clean_data, clean_data, List.map_map]
    apply List.map_congr_left
    intro c _
    exact cleanCharTable_idem c
  · rw [clean_data, List.length_map]

/-- C2, counterexample: the left single quotation mark U+2018 is a
directional quotation mark, yet `clean_text_for_pdf` leaves it unchanged
(it is not one of the five characters the source replaces), so the claim
that every directional quotation mark is replaced by its ASCII equivalent
is false. -/
theorem c2_counterexample :
    clean_text_for_pdf "‘" = "‘" ∧ ("‘" : String) ≠ "\x27" := by
  constructor
  · decide
  · decide

/-- C2, amended: `clean_text_for_pdf` maps each character through the
five-entry table `cleanCharTable` (right single quote U+2019, the double
quotes U+201C/U+201D, and the en/em dashes U+2013/U+2014 each go to their
plain ASCII equivalent; every other character — including the left single
quote U+2018 — is unchanged), and the output contains none of those five
characters. -/
theorem c2_amended_clean_table (s : String) :
    (clean_text_for_pdf s).data = s.data.map cleanCharTable ∧
    (clean_text_for_pdf s).data.all
      (fun c => !(c = '’' || c = '“' || c = '”' || c = '–' || c = '—')) = true := by
  refine ⟨clean_data s, ?_⟩
  rw [clean_data, List.all_eq_true]
  intro c hc
  obtain ⟨d, _, rfl⟩ := List.mem_map.mp hc
  unfold cleanCharTable
  split_ifs with h1 h2 h3 h4 h5
  · decide
  · decide
  · decide
  · decide
  · decide
  · simp [h1, h2, h3, h4, h5]

/-- C7: for every content, title, and layout outcome, `create_pdf` either
returns a byte buffer (and no error message) or returns a null result
together with a diagnostic message beginning with the source's
`PDF Generation Error` prefix; the `try/except` wrapper never lets an
exception escape. -/
theorem c7_create_pdf_never_raises
    (layout : List StoryElem → Except String (List Nat))
    (content document_type footerText : String) :
    (∃ b, create_pdf layout content document_type footerText = (some b, none)) ∨
    (∃ m, create_pdf layout content document_type footerText = (none, some m) ∧
      pyStartsWith m "PDF Generation Error" = true) := by
  unfold create_pdf
  cases h : layout (buildStory content document_type footerText) with
  | ok b => exact Or.inl ⟨b, rfl⟩
  | error e =>
    refine Or.inr ⟨"PDF Generation Error: " ++ e, rfl, ?_⟩
    unfold pyStartsWith
    rw [String.data_append, isPrefixOf_append_of_le _ _ _ (by decide)]
    decide

set_option linter.unusedVariables false in
/-- C1: for every non-empty prompt and supported document type,
`generate_with_template` returns normally (the modelled `str.format` call
succeeds, so the result is `some`), and it is deterministic: any two
calls with the same prompt and document type return the same string. -/
theorem c1_template_total_and_deterministic (p dt : String) (hp : p ≠ "")
    (hdt : dt ∈ ["cover_letter", "resume", "proposal", "letter", "document"]) :
    (∃ s, generate_with_template p dt = some s) ∧
    (∀ p2 dt2, p2 = p → dt2 = dt →
      generate_with_template p2 dt2 = generate_with_template p dt) := by
  refine ⟨⟨_, gwt_eq p dt⟩, ?_⟩
  intro p2 dt2 hp2 hdt2
  rw [hp2, hdt2]

/-- Witness for C1 at prompt `Hello` and document type `resume`. -/
theorem c1_witness :
    (∃ s, generate_with_template "Hello" "resume" = some s) ∧
    generate_with_template "Hello" "resume" = generate_with_template "Hello" "resume" := by
  have h := c1_template_total_and_deterministic "Hello" "resume" (by decide) (by decide)
  exact ⟨h.1, h.2 "Hello" "resume" rfl rfl⟩

/-- C8: with the remote path not preferred or no credential configured,
`generate_content` returns the template for the lowercased document type
(the `document` template if unrecognised) with the prompt substituted
verbatim at its `{prompt}` placeholder (spec-side `substPrompt`) and the
fixed template-mode note appended. -/
theorem c8_template_mode_shape (token : String) (outcome : GroqOutcome)
    (p dt : String) (use_api : Bool)
    (h : use_api = false ∨ token = "") :
    generate_content token outcome p dt use_api =
      some (substPrompt (templatesLookup (pyLower dt)) p ++ template_note) := by
  have hno : ¬(use_api = true ∧ token ≠ "") := by
    rcases h with h | h
    · intro hc
      rw [h] at hc
      exact Bool.false_ne_true hc.1
    · intro hc
      exact hc.2 h
  unfold generate_content
  rw [if_neg hno]
  exact gwt_eq p dt

/-- Witness for C8: no token configured, arbitrary remote outcome, upper
case document type `RESUME` (exercising the case-insensitive lookup). -/
theorem c8_witness :
    generate_content "" GroqOutcome.timeout "my background" "RESUME" true =
      some (substPrompt (templatesLookup (pyLower "RESUME")) "my background" ++
        template_note) :=
  c8_template_mode_shape "" GroqOutcome.timeout "my background" "RESUME" true
    (Or.inr rfl)

/-- C3: whenever the remote call comes back with any non-200 HTTP status
(500 in particular), the groq result is an `Error:`-prefixed string, so
`generate_content` falls back and returns exactly the template-mode
result for the same prompt and document type. -/
theorem c3_nonok_fallback_equivalence (token p dt raw : String) (body : JsonBody)
    (status : Nat) (htok : token ≠ "") (hst : status ≠ 200) :
    generate_content token (GroqOutcome.response status body raw) p dt true =
      generate_with_template p dt := by
  unfold generate_content
  rw [if_pos ⟨rfl, htok⟩]
  show (if pyStartsWith
      (generate_with_groq token (GroqOutcome.response status body raw) p dt)
      "Error:" = true then generate_with_template p dt
    else some (generate_with_groq token (GroqOutcome.response status body raw) p dt))
    = generate_with_template p dt
  rw [if_pos (groq_err_of_nonok token p dt raw body status htok hst)]

/-- Witness for C3 at HTTP status 500 with an unparseable error body. -/
theorem c3_witness :
    generate_content "k" (GroqOutcome.response 500 (JsonBody.malformed "boom") "oops")
      "x" "letter" true = generate_with_template "x" "letter" :=
  c3_nonok_fallback_equivalence "k" "x" "letter" "oops" (JsonBody.malformed "boom") 500
    (by decide) (by decide)

/-- C6: an HTTP 200 response whose JSON body lacks a `choices` field (or
has an empty `choices` list) makes `generate_with_groq` return the fixed
`Error: Invalid response format from API` string rather than raising, and
`generate_content` then falls back to the template-mode result. -/
theorem c6_missing_choices_fallback (token p dt raw : String)
    (err : Option (Option String)) (choices : Option (List String))
    (htok : token ≠ "") (hch : choices = none ∨ choices = some []) :
    generate_with_groq token
        (GroqOutcome.response 200 (JsonBody.ok choices err) raw) p dt =
      "Error: Invalid response format from API" ∧
    generate_content token
        (GroqOutcome.response 200 (JsonBody.ok choices err) raw) p dt true =
      generate_with_template p dt := by
  have hg : generate_with_groq token
      (GroqOutcome.response 200 (JsonBody.ok choices err) raw) p dt =
      "Error: Invalid response format from API" := by
    unfold generate_with_groq
    rw [if_neg htok]
    show (if (200 : Nat) = 200 then _ else _) = _
    rw [if_pos rfl]
    rcases hch with h | h <;> subst h <;> rfl
  refine ⟨hg, ?_⟩
  unfold generate_content
  rw [if_pos ⟨rfl, htok⟩]
  show (if pyStartsWith
      (generate_with_groq token (GroqOutcome.response 200 (JsonBody.ok choices err) raw) p dt)
      "Error:" = true then generate_with_template p dt
    else some (generate_with_groq token
      (GroqOutcome.response 200 (JsonBody.ok choices err) raw) p dt))
    = generate_with_template p dt
  rw [hg, if_pos (by decide)]

/-- Witness for C6 with the `choices` field absent. -/
theorem c6_witness :
    generate_with_groq "k" (GroqOutcome.response 200 (JsonBody.ok none none) "body") "x"
      "proposal" = "Error: Invalid response format from API" ∧
    generate_content "k" (GroqOutcome.response 200 (JsonBody.ok none none) "body") "x"
      "proposal" true = generate_with_template "x" "proposal" :=
  c6_missing_choices_fallback "k" "x" "proposal" "body" none none (by decide)
    (Or.inl rfl)

/-- C5, counterexample: the fallback test in `generate_content` is the
string prefix `Error:` (with colon), not the word `Error`. An HTTP 200
response whose generated document legitimately begins with the word
`Error` (here `Error handling requires care.`) is NOT discarded: it is
returned verbatim and differs from the template-mode result, refuting the
claim that any remote text starting with the word `Error` triggers the
template fallback. -/
theorem c5_counterexample :
    generate_content "tok"
        (GroqOutcome.response 200
          (JsonBody.ok (some ["Error handling requires care."]) none) "")
        "x" "letter" true = some "Error handling requires care." ∧
    pyStartsWith "Error handling requires care." "Error " = true ∧
    generate_content "tok"
        (GroqOutcome.response 200
          (JsonBody.ok (some ["Error handling requires care."]) none) "")
        "x" "letter" true ≠ generate_with_template "x" "letter" := by
  have h1 : generate_content "tok"
      (GroqOutcome.response 200
        (JsonBody.ok (some ["Error handling requires care."]) none) "")
      "x" "letter" true = some "Error handling requires care." := by decide
  refine ⟨h1, by decide, ?_⟩
  have hk : pyLower "letter" = "letter" := by decide
  have hl : templatesLookup "letter" = letter_template := by
    simp [templatesLookup]
  have h2 := (format_subst_decomp letter_template letter_pre letter_post
    letter_decomp letter_braceFree.1 letter_braceFree.2 "x").2
  rw [h1, gwt_eq, hk, hl, h2]
  intro he
  have h3 := Option.some.inj he
  have h5 := congrArg (fun s : String => s.data.head?) h3
  revert h5
  decide

/-- C5, amended: the fallback fires exactly on the prefix `Error:`:
whenever the (stripped) text of a successful HTTP 200 response starts
with the string `Error:`, `generate_content` discards it and returns the
template-mode result instead — even though the remote call succeeded and
the text is legitimate generated content. -/
theorem c5_amended_error_colon_prefix (token p dt raw c : String)
    (cs : List String) (err : Option (Option String))
    (htok : token ≠ "") (hc : pyStartsWith (pyStrip c) "Error:" = true) :
    generate_content token
        (GroqOutcome.response 200 (JsonBody.ok (some (c :: cs)) err) raw) p dt true =
      generate_with_template p dt := by
  have hg : generate_with_groq token
      (GroqOutcome.response 200 (JsonBody.ok (some (c :: cs)) err) raw) p dt =
      pyStrip c := by
    unfold generate_with_groq
    rw [if_neg htok]
    show (if (200 : Nat) = 200 then _ else _) = _
    rw [if_pos rfl]
  unfold generate_content
  rw [if_pos ⟨rfl, htok⟩]
  show (if pyStartsWith
      (generate_with_groq token
        (GroqOutcome.response 200 (JsonBody.ok (some (c :: cs)) err) raw) p dt)
      "Error:" = true then generate_with_template p dt
    else some (generate_with_groq token
      (GroqOutcome.response 200 (JsonBody.ok (some (c :: cs)) err) raw) p dt))
    = generate_with_template p dt
  rw [hg, if_pos hc]

/-- Witness for the amended C5: a 200 response whose legitimate content
starts with `Error:` is replaced by the template result. -/
theorem c5_amended_witness :
    generate_content "tok"
        (GroqOutcome.response 200
          (JsonBody.ok (some ["Error: a study of failure modes"]) none) "")
        "x" "proposal" true = generate_with_template "x" "proposal" :=
  c5_amended_error_colon_prefix "tok" "x" "proposal" ""
    "Error: a study of failure modes" [] none (by decide) (by decide)

/-- C10: `generate_content` always returns a value and that value never
starts with `Error:` — every error-prefixed remote result is replaced by
the template result, and no template result starts with `Error:` (each
template begins with its own fixed text), so the caller branch in `main`
that shows a generation error for an `Error:`-prefixed result can never
fire. -/
theorem c10_never_error_prefixed (token : String) (outcome : GroqOutcome)
    (p dt : String) (use_api : Bool) :
    ∃ r, generate_content token outcome p dt use_api = some r ∧
      pyStartsWith r "Error:" = false := by
  unfold generate_content
  by_cases hcond : use_api = true ∧ token ≠ ""
  · rw [if_pos hcond]
    by_cases herr : pyStartsWith (generate_with_groq token outcome p dt) "Error:" = true
    · refine ⟨substPrompt (templatesLookup (pyLower dt)) p ++ template_note, ?_,
        no_err_templatesLookup _ p⟩
      show (if pyStartsWith (generate_with_groq token outcome p dt) "Error:" = true
          then generate_with_template p dt
          else some (generate_with_groq token outcome p dt)) = _
      rw [if_pos herr]
      exact gwt_eq p dt
    · refine ⟨generate_with_groq token outcome p dt, ?_, by simpa using herr⟩
      show (if pyStartsWith (generate_with_groq token outcome p dt) "Error:" = true
          then generate_with_template p dt
          else some (generate_with_groq token outcome p dt)) = _
      rw [if_neg herr]
  · rw [if_neg hcond]
    exact ⟨_, gwt_eq p dt, no_err_templatesLookup _ p⟩

set_option maxRecDepth 40000 in
theorem gwt_proposal_filled :
    generate_with_template "x" "proposal" = some proposal_filled := by
  have hk : pyLower "proposal" = "proposal" := by decide
  have hl : templatesLookup "proposal" = proposal_template := by
    simp [templatesLookup]
  have h2 := (format_subst_decomp proposal_template proposal_pre proposal_post
    proposal_decomp proposal_braceFree.1 proposal_braceFree.2 "x").2
  have h3 : (String.mk (proposal_pre.data ++ "x".data ++ proposal_post.data) :
      String) ++ template_note = proposal_filled :=
    String.ext (eq_of_beq (by decide))
  rw [gwt_eq, hk, hl, h2, h3]

set_option maxRecDepth 40000 in
/-- C4, counterexample: in the template output for document type
`proposal` (prompt `x`), the ALL-CAPS section header `EXECUTIVE SUMMARY`
is not separated from the following sentence by a blank line, so it is
not its own paragraph unit: the unit that begins with it is rendered as
body text, and no heading-styled paragraph with text `EXECUTIVE SUMMARY`
exists in the story — refuting the claim that the ALL-CAPS section
headers of the template outputs are always classified as headings. -/
theorem c4_counterexample :
    generate_with_template "x" "proposal" = some proposal_filled ∧
    (buildStory proposal_filled "Business Proposal" "generated").any
      (fun e => match e with
        | StoryElem.para PStyle.customBody t =>
          List.isPrefixOf "EXECUTIVE SUMMARY\n".data t.data
        | _ => false) = true ∧
    (buildStory proposal_filled "Business Proposal" "generated").all
      (fun e => !(e == StoryElem.para PStyle.customHeader "EXECUTIVE SUMMARY")) =
      true := by
  refine ⟨gwt_proposal_filled, by decide, by decide⟩

set_option maxRecDepth 40000 in
/-- C4, amended: a non-empty blank-line-separated unit of the cleaned
content yields a heading-styled paragraph in the story exactly when its
trimmed text is under 80 characters and fully upper-case or
colon-terminated (the source's heuristic); standalone ALL-CAPS units of
the template outputs (such as `BUSINESS PROPOSAL`) are therefore
classified as headings, but ALL-CAPS headers that share their unit with
the following sentence (such as `EXECUTIVE SUMMARY` in the proposal
template) are not. -/
theorem c4_amended_heading_rule :
    (∀ content document_type footerText : String,
      ∀ u ∈ pySplit2NL (clean_text_for_pdf content).data,
        stripList u ≠ [] →
        (StoryElem.para PStyle.customHeader (String.mk (stripList u)) ∈
            buildStory content document_type footerText ↔
          isHeadingUnit (stripList u) = true)) ∧
    StoryElem.para PStyle.customHeader "BUSINESS PROPOSAL" ∈
      buildStory proposal_filled "Business Proposal" "generated" ∧
    StoryElem.para PStyle.customHeader "EXECUTIVE SUMMARY" ∉
      buildStory proposal_filled "Business Proposal" "generated" := by
  refine ⟨?_, by decide, by decide⟩
  intro content document_type footerText u hu hne
  constructor
  · intro hmem
    unfold buildStory at hmem
    simp only [List.mem_append, List.mem_cons, List.mem_singleton,
      List.mem_flatMap, List.not_mem_nil, or_false] at hmem
    rcases hmem with ((h | h) | ⟨v, hv, hrv⟩) | (h | h)
    · simp at h
    · simp at h
    · unfold renderUnit at hrv
      by_cases hv0 : stripList v = []
      · rw [if_pos hv0] at hrv
        exact absurd hrv (List.not_mem_nil _)
      · rw [if_neg hv0] at hrv
        simp only [List.mem_cons, List.not_mem_nil, or_false] at hrv
        rcases hrv with h | h
        · have hinj := StoryElem.para.inj h
          obtain ⟨hs, htxt⟩ := hinj
          have hss : stripList u = stripList v := congrArg String.data htxt
          by_cases hh : isHeadingUnit (stripList v) = true
          · rw [hss]
            exact hh
          · rw [if_neg hh] at hs
            simp at hs
        · simp at h
    · simp at h
    · simp at h
  · intro hh
    unfold buildStory
    simp only [List.mem_append, List.mem_cons, List.mem_singleton,
      List.mem_flatMap, List.not_mem_nil, or_false]
    refine Or.inl (Or.inr ⟨u, hu, ?_⟩)
    unfold renderUnit
    rw [if_neg hne, if_pos hh]
    exact List.mem_cons_self _ _

/-- Witness for the amended C4: the unit `AB CD` of the content
`AB CD` + blank line + `rest` is short and fully upper-case and is indeed
rendered as a heading, and the standalone `BUSINESS PROPOSAL` unit of the
proposal template output is rendered as a heading. -/
theorem c4_amended_witness :
    (StoryElem.para PStyle.customHeader (String.mk (stripList "AB CD".data)) ∈
        buildStory "AB CD\n\nrest" "T" "F" ↔
      isHeadingUnit (stripList "AB CD".data) = true) ∧
    StoryElem.para PStyle.customHeader "BUSINESS PROPOSAL" ∈
      buildStory proposal_filled "Business Proposal" "generated" :=
  ⟨c4_amended_heading_rule.1 "AB CD\n\nrest" "T" "F" "AB CD".data (by decide)
    (by decide), c4_amended_heading_rule.2.1⟩
